import Mathlib

/-!
Shallow embedding of `io_scene_godot/converters/simple_nodes.py`: the
empty/camera/light node converters, the external scene resolver
(`_find_scene_in_subtree`, `find_scene`) and the resource registry adapter
(`use_external_scene`).  Numeric attribute values are modelled as exact
rationals; the collaborators that live outside this module
(`structures.py`, `animation.py`) are modelled from the specification at
their interface boundary, each marked in its doc comment.
-/

namespace GodotExporter

/-- An RGB colour value, as carried by the light `color` and `shadow_color`
attributes. -/
structure Color where
  r : ℚ
  g : ℚ
  b : ℚ
deriving DecidableEq, Repr

/-- A 4x4 affine local transform (`matrix_local` on source objects),
represented by its rows. -/
structure Mat where
  entries : List (List ℚ)
deriving DecidableEq, Repr

/-- A value stored in a target node's attribute mapping. -/
inductive GdValue where
  | num (q : ℚ)
  | boolean (b : Bool)
  | str (s : String)
  | color (c : Color)
  | mat (m : Mat)
deriving DecidableEq, Repr

/-- A target node record: name, target kind, instance reference (present
exactly for instance nodes), parent linkage and the attribute mapping. -/
structure GdNode where
  name : String
  node_type : String
  instance_ref : Option String
  parent_name : String
  attrs : List (String × GdValue)
deriving DecidableEq, Repr

/-- Modelled from the spec: `NodeTemplate` (structures module, not among the
sources) creates a node record with a name, a target kind and a parent
linkage, with an initially empty attribute mapping. -/
def NodeTemplate (name node_type : String) (parent : GdNode) : GdNode :=
  ⟨name, node_type, none, parent.name, []⟩

/-- Modelled from the spec: `InstanceTemplate` (structures module, not among
the sources) creates an instance node referencing an external resource
token, distinct from a node embedding its own data. -/
def InstanceTemplate (name : String) (ref : String) (parent : GdNode) : GdNode :=
  ⟨name, "", some ref, parent.name, []⟩

/-- Dictionary-style attribute write on a node record: keys are unique and
the last write wins (replace an existing binding, otherwise append). -/
def setAttr (attrs : List (String × GdValue)) (k : String) (v : GdValue) :
    List (String × GdValue) :=
  if attrs.any (fun p => p.1 = k) then
    attrs.map (fun p => if p.1 = k then (k, v) else p)
  else
    attrs ++ [(k, v)]

/-- Attribute write on a node record (`node[key] = value` in the source). -/
def GdNode.set (n : GdNode) (k : String) (v : GdValue) : GdNode :=
  { n with attrs := setAttr n.attrs k v }

/-- Attribute lookup on a node record. -/
def getAttr (n : GdNode) (k : String) : Option GdValue :=
  (n.attrs.find? (fun p => p.1 = k)).map Prod.snd

/-- An external resource reference: file path plus declared type. -/
structure ExternalResource where
  path : String
  resource_type : String
deriving DecidableEq, Repr

/-- One registration in the document's external-resource registry: the
logical name it was registered under, the resource, and its identifier. -/
structure RegisteredResource where
  logical_name : String
  resource : ExternalResource
  id : Nat
deriving DecidableEq, Repr

/-- The target scene document (`escn_file`): registered nodes, registered
external resources, and the animation tracks written by the animation
collaborator. -/
structure EscnFile where
  nodes : List GdNode
  ext_resources : List RegisteredResource
  anim_tracks : List (String × String)
deriving DecidableEq, Repr

/-- Modelled from the spec: `Document.get_external_resource(logical_name)`
returns the identifier already registered under that logical name, if any. -/
def EscnFile.get_external_resource (f : EscnFile) (name : String) : Option Nat :=
  (f.ext_resources.find? (fun r => r.logical_name = name)).map RegisteredResource.id

/-- Modelled from the spec: `Document.add_external_resource(resource,
logical_name)` registers the resource under the logical name and returns a
fresh document-scoped identifier. -/
def EscnFile.add_external_resource (f : EscnFile) (res : ExternalResource)
    (name : String) : EscnFile × Nat :=
  let rid := f.ext_resources.length + 1
  ({ f with ext_resources := f.ext_resources ++ [⟨name, res, rid⟩] }, rid)

/-- Modelled from the spec: `Document.add_node(node)` appends the node to the
document. -/
def EscnFile.add_node (f : EscnFile) (n : GdNode) : EscnFile :=
  { f with nodes := f.nodes ++ [n] }

/-- The filesystem as seen by the resolver: `walk` lists, in walk order, the
directories under a root together with the plain file names they contain
(`os.walk`), and `read_first_line` is the first line of a file's content. -/
structure FileSystem where
  walk : String → List (String × List String)
  read_first_line : String → String

/-- The export configuration options this module reads. -/
structure ExportSettings where
  material_search_paths : String
  project_path : String
  path : String
  object_types : List String

/-- Python `in` on strings: `pat` occurs as a contiguous segment of `l`. -/
def containsSeg (pat : List Char) : List Char → Bool
  | [] => pat.isEmpty
  | c :: rest => pat.isPrefixOf (c :: rest) || containsSeg pat rest

/-- `os.path.dirname`: everything before the last path separator. -/
def dirname (p : String) : String :=
  let cs := p.toList
  match (List.range cs.length).reverse.find? (fun i => cs.get? i = some '/') with
  | some i => String.mk (cs.take i)
  | none => ""

/-- `os.path.join` for a directory and a file name. -/
def os_path_join (d f : String) : String :=
  if d = "" then f
  else if d.endsWith "/" then d ++ f
  else d ++ "/" ++ f

/-- The candidate files of `_find_scene_in_subtree`: every file named
`scene_filename` found while walking `folder`, joined with its directory,
in walk order. -/
def sceneCandidates (fs : FileSystem) (folder scene_filename : String) :
    List String :=
  (fs.walk folder).filterMap (fun e =>
    if scene_filename ∈ e.2 then some (os_path_join e.1 scene_filename) else none)

/-- The validity sniff of `_find_scene_in_subtree`: the candidate's first
line contains the marker token. -/
def isValidSceneFile (fs : FileSystem) (c : String) : Bool :=
  containsSeg ("gd_scene".toList) ((fs.read_first_line c).toList)

/-- `_find_scene_in_subtree(folder, scene_filename)`: walk the folder,
collect candidates named like the scene, keep those whose first line
contains the marker, return the first of them paired with its declared
type, or not-found; the second component records whether the
multiple-candidates warning was emitted. -/
def _find_scene_in_subtree (fs : FileSystem) (folder scene_filename : String) :
    Option (String × String) × Bool :=
  let candidates := sceneCandidates fs folder scene_filename
  let valid_candidates := candidates.filterMap (fun c =>
    if isValidSceneFile fs c then some (c, "PackedScene") else none)
  if valid_candidates.isEmpty then (none, false)
  else (valid_candidates.head?, decide (1 < valid_candidates.length))

/-- `find_scene(export_settings, scene_filename)`: choose the search root
from the configuration and delegate to the subtree search, or return
not-found when searching is disabled. -/
def find_scene (fs : FileSystem) (export_settings : ExportSettings)
    (scene_filename : String) : Option (String × String) × Bool :=
  let search_dir : Option String :=
    if export_settings.material_search_paths = "PROJECT_DIR" then
      some export_settings.project_path
    else if export_settings.material_search_paths = "EXPORT_DIR" then
      some (dirname export_settings.path)
    else none
  match search_dir with
  | none => (none, false)
  | some d => _find_scene_in_subtree fs d scene_filename

/-- `use_external_scene(escn_file, export_settings, scene_name)`: resolve
the scene; on success reuse an identifier already registered under the
name or register a fresh resource, and return the reference token; on
failure log a warning and return nothing. -/
def use_external_scene (fs : FileSystem) (escn_file : EscnFile)
    (export_settings : ExportSettings) (scene_name : String) :
    EscnFile × Option String :=
  match (find_scene fs export_settings scene_name).1 with
  | some external_scene =>
    match escn_file.get_external_resource scene_name with
    | some resource_id =>
        (escn_file, some ("ExtResource(" ++ toString resource_id ++ ")"))
    | none =>
        let ext_scene : ExternalResource := ⟨external_scene.1, external_scene.2⟩
        let res := escn_file.add_external_resource ext_scene scene_name
        (res.1, some ("ExtResource(" ++ toString res.2 ++ ")"))
  | none => (escn_file, none)

/-- Whether a character list ends in one of the recognized scene-file
suffixes matched by the pattern. -/
def hasSceneSuffix (l : List Char) : Bool :=
  (".tscn".toList).isSuffixOf l || (".escn".toList).isSuffixOf l

/-- Python `re.match` applied to the unanchored pattern matching a greedy
run of non-newline characters followed by a literal dot, a `t` or an `e`,
and `scn`: the match, when it exists, is the longest initial segment of
the name that ends in a recognized scene-file suffix, its part before the
suffix free of newlines; the end of the name is not required to coincide
with the end of the match. -/
def reMatchScene (name : String) : Option String :=
  let cs := name.toList
  match (List.range (cs.length + 1)).reverse.find? (fun i =>
      hasSceneSuffix (cs.take i) && (cs.take (i - 5)).all (fun c => c ≠ '\n')) with
  | some i => some (String.mk (cs.take i))
  | none => none

/-- One recorded invocation of the animation-export collaborator. -/
structure AnimCall where
  target : Option GdNode
  category : String
deriving DecidableEq, Repr

/-- Modelled from the spec: `export_animation_data` (animation module, not
among the sources) must accept an absent target node as a no-op; with a
present target it writes animation tracks for it into the document. -/
def export_animation_data (escn_file : EscnFile) (target : Option GdNode)
    (category : String) : EscnFile :=
  match target with
  | none => escn_file
  | some n => { escn_file with anim_tracks := escn_file.anim_tracks ++ [(n.name, category)] }

/-- A source empty object: name and local transform. -/
structure BlEmpty where
  name : String
  matrix_local : Mat
deriving DecidableEq, Repr

/-- `export_empty_node(escn_file, export_settings, node, parent_gd_node)`:
return the parent unchanged when empties are filtered out; otherwise, when
the name matches the scene-file pattern and the external scene resolves,
build an instance node, else build a generic spatial node.  The last
component records the animation-export invocations made (none). -/
def export_empty_node (fs : FileSystem) (escn_file : EscnFile)
    (export_settings : ExportSettings) (node : BlEmpty) (parent_gd_node : GdNode) :
    EscnFile × GdNode × List AnimCall :=
  if "EMPTY" ∉ export_settings.object_types then
    (escn_file, parent_gd_node, [])
  else
    match reMatchScene node.name with
    | some scene_name =>
      let res := use_external_scene fs escn_file export_settings scene_name
      match res.2 with
      | some inst =>
        let instance_node :=
          (InstanceTemplate node.name inst parent_gd_node).set
            "transform" (.mat node.matrix_local)
        (res.1.add_node instance_node, instance_node, [])
      | none =>
        let empty_node :=
          (NodeTemplate node.name "Spatial" parent_gd_node).set
            "transform" (.mat node.matrix_local)
        (res.1.add_node empty_node, empty_node, [])
    | none =>
      let empty_node :=
        (NodeTemplate node.name "Spatial" parent_gd_node).set
          "transform" (.mat node.matrix_local)
      (escn_file.add_node empty_node, empty_node, [])

/-- A source camera data block (`node.data` for a camera object).  The
`type` attribute of the source is called `cam_type` here, `type` being
reserved. -/
structure BlCamera where
  clip_end : ℚ
  clip_start : ℚ
  ortho_scale : ℚ
  cam_type : String
  angle : ℚ
deriving DecidableEq, Repr

/-- A source camera object: name, local transform and camera data block. -/
structure BlCameraObject where
  name : String
  matrix_local : Mat
  data : BlCamera
deriving DecidableEq, Repr

/-- One entry of an attribute conversion table: source attribute name,
target attribute name, and the pure value converter. -/
structure AttributeConvertInfo where
  bl_attr : String
  gd_attr : String
  converter : GdValue → GdValue

/-- Lifts a rational-valued converter lambda of the source to attribute
values; source attributes fed to such a lambda are always numeric. -/
def qfun (f : ℚ → ℚ) : GdValue → GdValue
  | .num q => .num (f q)
  | v => v

/-- Lifts a colour-valued converter of the source to attribute values;
source attributes fed to such a converter are always colours. -/
def cfun (f : Color → Color) : GdValue → GdValue
  | .color c => .color (f c)
  | v => v

/-- `CameraNode._cam_attr_conv`: the camera attribute conversion table. -/
def _cam_attr_conv : List AttributeConvertInfo :=
  [⟨"clip_end", "far", qfun (fun x => x)⟩,
   ⟨"clip_start", "near", qfun (fun x => x)⟩,
   ⟨"ortho_scale", "size", qfun (fun x => x)⟩]

/-- Python `getattr` on a camera data block, for the attributes the tables
reference; any other name is a caller error of the static tables. -/
def getattr_camera (c : BlCamera) (a : String) : GdValue :=
  if a = "clip_end" then .num c.clip_end
  else if a = "clip_start" then .num c.clip_start
  else if a = "ortho_scale" then .num c.ortho_scale
  else if a = "angle" then .num c.angle
  else .str ""

/-- The attribute table loop shared by the camera and light converters:
for each entry, read the source attribute, convert it, and write it to the
target attribute. -/
def applyConvTable (table : List AttributeConvertInfo)
    (getattrFun : String → GdValue) (n : GdNode) : GdNode :=
  table.foldl (fun node item => node.set item.gd_attr (item.converter (getattrFun item.bl_attr))) n

/-- `export_camera_node(escn_file, export_settings, node, parent_gd_node)`.
`fixT` abstracts `fix_directional_transform` (structures module, not among
the sources) and `radToDeg` abstracts `math.degrees`, the exact
radians-to-degrees scaling, whose factor is irrational.  The last
component records the animation-export invocations made. -/
def export_camera_node (fixT : Mat → Mat) (radToDeg : ℚ → ℚ)
    (escn_file : EscnFile) (export_settings : ExportSettings)
    (node : BlCameraObject) (parent_gd_node : GdNode) :
    EscnFile × GdNode × List AnimCall :=
  let cam_node := NodeTemplate node.name "Camera" parent_gd_node
  let camera := node.data
  let cam_node := applyConvTable _cam_attr_conv (getattr_camera camera) cam_node
  let cam_node := cam_node.set "projection"
    (if camera.cam_type = "PERSP" then .num 0 else .num 1)
  let cam_node := cam_node.set "fov" (.num (radToDeg camera.angle))
  let cam_node := cam_node.set "transform" (.mat (fixT node.matrix_local))
  let f2 := escn_file.add_node cam_node
  let f3 := export_animation_data f2 (some cam_node) "camera"
  (f3, cam_node, [⟨some cam_node, "camera"⟩])

/-- A source light data block (`node.data` for a light object).  The
`type` attribute is called `light_type` here and `cycles.cast_shadow` is
flattened to `cycles_cast_shadow`. -/
structure BlLight where
  light_type : String
  energy : ℚ
  color : Color
  shadow_color : Color
  specular_factor : ℚ
  cutoff_distance : ℚ
  spot_size : ℚ
  spot_blend : ℚ
  use_shadow : Bool
  cycles_cast_shadow : Bool
deriving DecidableEq, Repr

/-- A source light object: name, local transform and light data block. -/
structure BlLightObject where
  name : String
  matrix_local : Mat
  data : BlLight
deriving DecidableEq, Repr

/-- The spot-blend converter lambda of `LightNode._spot_attr_conv`. -/
def spot_blend_conv (x : ℚ) : ℚ := 0.2 / (x + 0.01)

/-- `LightNode._light_attr_conv`: the conversion table common to every
light kind.  `gamma_correct` abstracts the colour correction of the
structures module, not among the sources. -/
def _light_attr_conv (gamma_correct : Color → Color) : List AttributeConvertInfo :=
  [⟨"specular_factor", "light_specular", qfun (fun x => x)⟩,
   ⟨"color", "light_color", cfun gamma_correct⟩,
   ⟨"shadow_color", "shadow_color", cfun gamma_correct⟩]

/-- `LightNode._omni_attr_conv`: the omni-light extension table. -/
def _omni_attr_conv : List AttributeConvertInfo :=
  [⟨"energy", "light_energy", qfun (fun x => |x / 100|)⟩,
   ⟨"cutoff_distance", "omni_range", qfun (fun x => x)⟩]

/-- `LightNode._spot_attr_conv`: the spot-light extension table; `radToDeg`
abstracts `math.degrees`. -/
def _spot_attr_conv (radToDeg : ℚ → ℚ) : List AttributeConvertInfo :=
  [⟨"energy", "light_energy", qfun (fun x => |x / 100|)⟩,
   ⟨"spot_size", "spot_angle", qfun (fun x => radToDeg (x / 2))⟩,
   ⟨"spot_blend", "spot_angle_attenuation", qfun spot_blend_conv⟩,
   ⟨"cutoff_distance", "spot_range", qfun (fun x => x)⟩]

/-- `LightNode._directional_attr_conv`: the directional-light extension
table. -/
def _directional_attr_conv : List AttributeConvertInfo :=
  [⟨"energy", "light_energy", qfun (fun x => |x|)⟩]

/-- `LightNode.attribute_conversion`: the effective table for a light node,
selected by the node's target kind: the common table followed by the
kind-specific extension. -/
def light_attribute_conversion (gamma_correct : Color → Color) (radToDeg : ℚ → ℚ)
    (node_type : String) : List AttributeConvertInfo :=
  if node_type = "OmniLight" then
    _light_attr_conv gamma_correct ++ _omni_attr_conv
  else if node_type = "SpotLight" then
    _light_attr_conv gamma_correct ++ _spot_attr_conv radToDeg
  else if node_type = "DirectionalLight" then
    _light_attr_conv gamma_correct ++ _directional_attr_conv
  else _light_attr_conv gamma_correct

/-- Python `getattr` on a light data block, for the attributes the tables
reference. -/
def getattr_light (l : BlLight) (a : String) : GdValue :=
  if a = "specular_factor" then .num l.specular_factor
  else if a = "color" then .color l.color
  else if a = "shadow_color" then .color l.shadow_color
  else if a = "energy" then .num l.energy
  else if a = "cutoff_distance" then .num l.cutoff_distance
  else if a = "spot_size" then .num l.spot_size
  else if a = "spot_blend" then .num l.spot_blend
  else .str ""

/-- The `bl_light_to_gd_light` lookup of `export_light_node`. -/
def bl_light_to_gd_light (t : String) : Option String :=
  if t = "POINT" then some "OmniLight"
  else if t = "SPOT" then some "SpotLight"
  else if t = "SUN" then some "DirectionalLight"
  else none

/-- `export_light_node(escn_file, export_settings, node, parent_gd_node)`:
map the source light kind to a target kind (an unknown kind yields no node
and a warning), apply the effective attribute table, set the non-tabular
attributes, register the node, and invoke the animation-export
collaborator with whatever node resulted, possibly none.  The last
component records the animation-export invocations made. -/
def export_light_node (fixT : Mat → Mat) (gamma_correct : Color → Color)
    (radToDeg : ℚ → ℚ) (escn_file : EscnFile) (export_settings : ExportSettings)
    (node : BlLightObject) (parent_gd_node : GdNode) :
    EscnFile × Option GdNode × List AnimCall :=
  let light := node.data
  match bl_light_to_gd_light light.light_type with
  | some gd_type =>
    let light_node := NodeTemplate node.name gd_type parent_gd_node
    let light_node := applyConvTable
      (light_attribute_conversion gamma_correct radToDeg light_node.node_type)
      (getattr_light light) light_node
    let light_node := light_node.set "transform" (.mat (fixT node.matrix_local))
    let light_node := light_node.set "light_negative" (.boolean (decide (light.energy < 0)))
    let light_node := light_node.set "shadow_enabled"
      (.boolean (light.use_shadow && light.cycles_cast_shadow))
    let f2 := escn_file.add_node light_node
    let f3 := export_animation_data f2 (some light_node) "light"
    (f3, some light_node, [⟨some light_node, "light"⟩])
  | none =>
    let f3 := export_animation_data escn_file none "light"
    (f3, none, [⟨none, "light"⟩])

/-- A filesystem fixture: one directory holding one scene file whose first
line carries the marker token. -/
def fsA : FileSystem :=
  ⟨fun _ => [("proj", ["a.tscn"])], fun _ => "[gd_scene load_steps=3]"⟩

/-- A configuration fixture searching the project directory, with empties
enabled. -/
def settingsA : ExportSettings := ⟨"PROJECT_DIR", "proj", "out/out.escn", ["EMPTY"]⟩

/-- A configuration fixture with empties disabled. -/
def settingsB : ExportSettings := ⟨"NONE", "", "", ["CAMERA"]⟩

/-- A configuration fixture with empties enabled but scene searching
disabled. -/
def settingsC : ExportSettings := ⟨"NONE", "", "", ["EMPTY"]⟩

/-- An empty document fixture. -/
def escnEmpty : EscnFile := ⟨[], [], []⟩

/-- A root node fixture. -/
def rootA : GdNode := ⟨"root", "Spatial", none, "", []⟩

/-- An identity transform fixture. -/
def matA : Mat := ⟨[[1, 0, 0, 0], [0, 1, 0, 0], [0, 0, 1, 0], [0, 0, 0, 1]]⟩

/-- A point-light fixture with energy -250. -/
def lightNeg250 : BlLight :=
  ⟨"POINT", -250, ⟨1, 1, 1⟩, ⟨0, 0, 0⟩, 1, 10, 1, 0, true, true⟩

/-- A sun-light fixture with energy -3.5. -/
def lightNeg35 : BlLight :=
  ⟨"SUN", -3.5, ⟨1, 1, 1⟩, ⟨0, 0, 0⟩, 1, 10, 1, 0, true, true⟩

/-- An area-light fixture, a kind the converter does not know. -/
def lightArea : BlLight :=
  ⟨"AREA", 60, ⟨1, 1, 1⟩, ⟨0, 0, 0⟩, 1, 10, 1, 0, true, true⟩

theorem setAttr_find? (attrs : List (String × GdValue)) (k : String) (v : GdValue) :
    (setAttr attrs k v).find? (fun p => p.1 = k) = some (k, v) := by
  unfold setAttr
  by_cases h : attrs.any (fun p => p.1 = k)
  · rw [if_pos h]
    induction attrs with
    | nil => simp at h
    | cons a t ih =>
      by_cases ha : a.1 = k
      · simp [ha]
      · have ht : t.any (fun p => p.1 = k) = true := by
          simp only [List.any_cons, decide_eq_true_eq] at h
          rcases Bool.or_eq_true_iff.mp h with h1 | h1
          · exact absurd (of_decide_eq_true h1) ha
          · exact h1
        simpa [ha] using ih ht
  · rw [if_neg h]
    rw [List.find?_append]
    have h0 : attrs.find? (fun p => p.1 = k) = none := by
      rw [List.find?_eq_none]
      intro x hx
      have := (List.any_eq_false.mp (Bool.of_not_eq_true h)) x hx
      simpa using this
    simp [h0]

theorem getAttr_set (n : GdNode) (k : String) (v : GdValue) :
    getAttr (n.set k v) k = some v := by
  unfold getAttr GdNode.set
  simp [setAttr_find?]

theorem find?_map_update_ne {k k' : String} (h : k' ≠ k) (v : GdValue) :
    ∀ t : List (String × GdValue),
      (t.map (fun p => if p.1 = k' then (k', v) else p)).find? (fun p => p.1 = k)
        = t.find? (fun p => p.1 = k)
  | [] => rfl
  | a :: t => by
      by_cases hak : a.1 = k'
      · have h1 : ¬ a.1 = k := by rw [hak]; exact h
        simp only [List.map_cons, if_pos hak]
        rw [List.find?_cons_of_neg _ (by simpa using h),
          List.find?_cons_of_neg _ (by simpa using h1)]
        exact find?_map_update_ne h v t
      · simp only [List.map_cons, if_neg hak]
        by_cases hk : a.1 = k
        · rw [List.find?_cons_of_pos _ (by simpa using hk),
            List.find?_cons_of_pos _ (by simpa using hk)]
        · rw [List.find?_cons_of_neg _ (by simpa using hk),
            List.find?_cons_of_neg _ (by simpa using hk)]
          exact find?_map_update_ne h v t

theorem find?_setAttr_ne (attrs : List (String × GdValue)) {k k' : String}
    (h : k' ≠ k) (v : GdValue) :
    (setAttr attrs k' v).find? (fun p => p.1 = k) =
      attrs.find? (fun p => p.1 = k) := by
  unfold setAttr
  by_cases ha : attrs.any (fun p => p.1 = k')
  · rw [if_pos ha]
    exact find?_map_update_ne h v attrs
  · rw [if_neg ha, List.find?_append]
    have h1 : ([(k', v)].find? (fun p => p.1 = k)) = none := by
      simp [h]
    rw [h1]
    cases attrs.find? (fun p => p.1 = k) <;> rfl

theorem getAttr_set_ne {k k' : String} (h : k' ≠ k) (n : GdNode) (v : GdValue) :
    getAttr (n.set k' v) k = getAttr n k := by
  unfold getAttr GdNode.set
  simp [find?_setAttr_ne _ h]

/-- C2: the spot-light blend conversion, as installed in the spot attribute
table, maps a blend value b to 0.2 / (b + 0.01); it is strictly decreasing
on [0,1]; at b = 0 it yields exactly 20 and at b = 1 it yields 0.2/1.01;
and the denominator is nonzero throughout [0,1], so the conversion is
total there. -/
theorem spot_blend_conv_spec :
    (∀ (gc : Color → Color) (d : ℚ → ℚ) (l : BlLight) (n : GdNode),
      getAttr (applyConvTable (light_attribute_conversion gc d "SpotLight")
          (getattr_light l) n) "spot_angle_attenuation"
        = some (.num (spot_blend_conv l.spot_blend))) ∧
    (∀ x : ℚ, spot_blend_conv x = 0.2 / (x + 0.01)) ∧
    (∀ a b : ℚ, 0 ≤ a → a < b → b ≤ 1 → spot_blend_conv b < spot_blend_conv a) ∧
    spot_blend_conv 0 = 20 ∧
    spot_blend_conv 1 = 0.2 / 1.01 ∧
    (∀ b : ℚ, 0 ≤ b → b ≤ 1 → b + 0.01 ≠ 0) := by
  refine ⟨?_, fun x => rfl, ?_, by norm_num [spot_blend_conv], by norm_num [spot_blend_conv], ?_⟩
  · intro gc d l n
    have htab : light_attribute_conversion gc d "SpotLight"
        = _light_attr_conv gc ++ _spot_attr_conv d := by
      simp [light_attribute_conversion]
    rw [htab]
    simp only [_light_attr_conv, _spot_attr_conv, List.cons_append, List.nil_append,
      applyConvTable, List.foldl_cons, List.foldl_nil]
    rw [getAttr_set_ne (by decide), getAttr_set]
    simp [getattr_light, qfun]
  · intro a b ha hab hb1
    unfold spot_blend_conv
    apply div_lt_div_of_pos_left (by norm_num) (by linarith) (by linarith)
  · intro b hb0 hb1
    have : (0 : ℚ) < b + 0.01 := by linarith
    linarith

/-- C2 witness: the strict-decrease part applied at the endpoints 0 and 1
of the interval. -/
theorem spot_blend_conv_spec_witness :
    (0 : ℚ) ≤ 0 ∧ (0 : ℚ) < 1 ∧ (1 : ℚ) ≤ 1 ∧
    spot_blend_conv 1 < spot_blend_conv 0 :=
  ⟨le_refl 0, by norm_num, le_refl 1,
    spot_blend_conv_spec.2.2.1 0 1 (le_refl 0) (by norm_num) (le_refl 1)⟩

/-- C3: the light-energy conversion applied by the Omni and Spot tables
equals abs(e / 100) for every energy e, so -250 maps to 2.5, while the
conversion applied by the Directional table equals abs(e) with no scaling,
so -3.5 maps to 3.5; the three light kinds use these distinct per-kind
rules. -/
theorem light_energy_conversion :
    (∀ (gc : Color → Color) (d : ℚ → ℚ) (l : BlLight) (n : GdNode),
      getAttr (applyConvTable (light_attribute_conversion gc d "OmniLight")
          (getattr_light l) n) "light_energy" = some (.num |l.energy / 100|)) ∧
    (∀ (gc : Color → Color) (d : ℚ → ℚ) (l : BlLight) (n : GdNode),
      getAttr (applyConvTable (light_attribute_conversion gc d "SpotLight")
          (getattr_light l) n) "light_energy" = some (.num |l.energy / 100|)) ∧
    (∀ (gc : Color → Color) (d : ℚ → ℚ) (l : BlLight) (n : GdNode),
      getAttr (applyConvTable (light_attribute_conversion gc d "DirectionalLight")
          (getattr_light l) n) "light_energy" = some (.num |l.energy|)) ∧
    (∀ (gc : Color → Color) (d : ℚ → ℚ) (n : GdNode),
      getAttr (applyConvTable (light_attribute_conversion gc d "OmniLight")
          (getattr_light lightNeg250) n) "light_energy" = some (.num 2.5)) ∧
    (∀ (gc : Color → Color) (d : ℚ → ℚ) (n : GdNode),
      getAttr (applyConvTable (light_attribute_conversion gc d "DirectionalLight")
          (getattr_light lightNeg35) n) "light_energy" = some (.num 3.5)) := by
  have homni : ∀ (gc : Color → Color) (d : ℚ → ℚ) (l : BlLight) (n : GdNode),
      getAttr (applyConvTable (light_attribute_conversion gc d "OmniLight")
          (getattr_light l) n) "light_energy" = some (.num |l.energy / 100|) := by
    intro gc d l n
    have htab : light_attribute_conversion gc d "OmniLight"
        = _light_attr_conv gc ++ _omni_attr_conv := by
      simp [light_attribute_conversion]
    rw [htab]
    simp only [_light_attr_conv, _omni_attr_conv, List.cons_append, List.nil_append,
      applyConvTable, List.foldl_cons, List.foldl_nil]
    rw [getAttr_set_ne (by decide), getAttr_set]
    simp [getattr_light, qfun]
  have hdir : ∀ (gc : Color → Color) (d : ℚ → ℚ) (l : BlLight) (n : GdNode),
      getAttr (applyConvTable (light_attribute_conversion gc d "DirectionalLight")
          (getattr_light l) n) "light_energy" = some (.num |l.energy|) := by
    intro gc d l n
    have htab : light_attribute_conversion gc d "DirectionalLight"
        = _light_attr_conv gc ++ _directional_attr_conv := by
      simp [light_attribute_conversion]
    rw [htab]
    simp only [_light_attr_conv, _directional_attr_conv, List.cons_append,
      List.nil_append, applyConvTable, List.foldl_cons, List.foldl_nil]
    rw [getAttr_set]
    simp [getattr_light, qfun]
  refine ⟨homni, ?_, hdir, ?_, ?_⟩
  · intro gc d l n
    have htab : light_attribute_conversion gc d "SpotLight"
        = _light_attr_conv gc ++ _spot_attr_conv d := by
      simp [light_attribute_conversion]
    rw [htab]
    simp only [_light_attr_conv, _spot_attr_conv, List.cons_append, List.nil_append,
      applyConvTable, List.foldl_cons, List.foldl_nil]
    rw [getAttr_set_ne (by decide), getAttr_set_ne (by decide),
      getAttr_set_ne (by decide), getAttr_set]
    simp [getattr_light, qfun]
  · intro gc d n
    rw [homni gc d lightNeg250 n]
    norm_num [lightNeg250]
  · intro gc d n
    rw [hdir gc d lightNeg35 n]
    norm_num [lightNeg35]

/-- C4: export_camera_node sets the 'projection' attribute to 0 when the
source camera's type equals the perspective kind and to 1 for every other
camera type. -/
theorem export_camera_node_projection (fixT : Mat → Mat) (radToDeg : ℚ → ℚ)
    (escn : EscnFile) (settings : ExportSettings) (node : BlCameraObject)
    (parent : GdNode) :
    getAttr (export_camera_node fixT radToDeg escn settings node parent).2.1
        "projection"
      = some (.num (if node.data.cam_type = "PERSP" then 0 else 1)) := by
  simp only [export_camera_node]
  rw [getAttr_set_ne (by decide), getAttr_set_ne (by decide), getAttr_set]
  split <;> rfl

/-- C5: when the placeholder entity kind is absent from the configured
object types, export_empty_node returns the parent node unchanged, adds no
node to the document, and leaves the document untouched. -/
theorem export_empty_node_filtered (fs : FileSystem) (escn : EscnFile)
    (settings : ExportSettings) (node : BlEmpty) (parent : GdNode)
    (h : "EMPTY" ∉ settings.object_types) :
    export_empty_node fs escn settings node parent = (escn, parent, []) := by
  simp only [export_empty_node, if_pos h]

/-- C5 witness: a configuration without the placeholder kind leaves
document and parent unchanged. -/
theorem export_empty_node_filtered_witness :
    "EMPTY" ∉ settingsB.object_types ∧
    export_empty_node fsA escnEmpty settingsB ⟨"a.tscn", matA⟩ rootA
      = (escnEmpty, rootA, []) :=
  ⟨by decide,
    export_empty_node_filtered fsA escnEmpty settingsB ⟨"a.tscn", matA⟩ rootA (by decide)⟩

/-- C1: when the resolver finds a scene, calling use_external_scene twice
with the same name against the same document returns the same reference
token both times, leaves the document unchanged on the second call, and
grows the number of registrations under that name by at most one in
total. -/
theorem use_external_scene_idempotent (fs : FileSystem) (settings : ExportSettings)
    (escn : EscnFile) (name : String)
    (h : (find_scene fs settings name).1.isSome = true) :
    (use_external_scene fs (use_external_scene fs escn settings name).1 settings name).2
        = (use_external_scene fs escn settings name).2 ∧
    (use_external_scene fs escn settings name).2.isSome = true ∧
    (use_external_scene fs (use_external_scene fs escn settings name).1 settings name).1
        = (use_external_scene fs escn settings name).1 ∧
    ((use_external_scene fs escn settings name).1.ext_resources.filter
        (fun r => r.logical_name = name)).length ≤
      (escn.ext_resources.filter (fun r => r.logical_name = name)).length + 1 := by
  obtain ⟨ext, hext⟩ := Option.isSome_iff_exists.mp h
  rcases hg : escn.get_external_resource name with _ | rid
  · have hfind : escn.ext_resources.find? (fun r => r.logical_name = name) = none := by
      unfold EscnFile.get_external_resource at hg
      exact Option.map_eq_none'.mp hg
    set f1 : EscnFile := { escn with ext_resources := escn.ext_resources ++
      [⟨name, ⟨ext.1, ext.2⟩, escn.ext_resources.length + 1⟩] } with hf1
    have h1 : use_external_scene fs escn settings name
        = (f1, some ("ExtResource(" ++ toString (escn.ext_resources.length + 1) ++ ")")) := by
      simp only [use_external_scene, hext, hg, EscnFile.add_external_resource, hf1]
    have hg2 : f1.get_external_resource name = some (escn.ext_resources.length + 1) := by
      rw [hf1]
      unfold EscnFile.get_external_resource
      simp only [List.find?_append, hfind]
      simp
    have h2 : use_external_scene fs f1 settings name
        = (f1, some ("ExtResource(" ++ toString (escn.ext_resources.length + 1) ++ ")")) := by
      simp only [use_external_scene, hext, hg2]
    have e1 : (use_external_scene fs escn settings name).1 = f1 := by rw [h1]
    have e2 : (use_external_scene fs escn settings name).2
        = some ("ExtResource(" ++ toString (escn.ext_resources.length + 1) ++ ")") := by
      rw [h1]
    have e3 : (use_external_scene fs f1 settings name).2
        = some ("ExtResource(" ++ toString (escn.ext_resources.length + 1) ++ ")") := by
      rw [h2]
    have e4 : (use_external_scene fs f1 settings name).1 = f1 := by rw [h2]
    refine ⟨?_, ?_, ?_, ?_⟩
    · rw [e1, e3, e2]
    · rw [e2]
      rfl
    · rw [e1, e4]
    · rw [e1, hf1]
      simp
  · have h1 : use_external_scene fs escn settings name
        = (escn, some ("ExtResource(" ++ toString rid ++ ")")) := by
      simp only [use_external_scene, hext, hg]
    have e1 : (use_external_scene fs escn settings name).1 = escn := by rw [h1]
    have e2 : (use_external_scene fs escn settings name).2
        = some ("ExtResource(" ++ toString rid ++ ")") := by
      rw [h1]
    refine ⟨?_, ?_, ?_, ?_⟩
    · rw [e1]
    · rw [e2]
      rfl
    · rw [e1]
      exact e1
    · rw [e1]
      exact Nat.le_succ _

/-- C1 witness: on a filesystem holding one valid scene file, both the
resolver hypothesis and the same-token conclusion hold at a concrete
input. -/
theorem use_external_scene_idempotent_witness :
    (find_scene fsA settingsA "a.tscn").1.isSome = true ∧
    (use_external_scene fsA (use_external_scene fsA escnEmpty settingsA "a.tscn").1
        settingsA "a.tscn").2
      = (use_external_scene fsA escnEmpty settingsA "a.tscn").2 :=
  ⟨by decide,
    (use_external_scene_idempotent fsA settingsA escnEmpty "a.tscn" (by decide)).1⟩

/-- C6: an entity whose name matches the scene-filename pattern but whose
external scene does not resolve degrades to a generic spatial node, not an
instance node, registered with the document. -/
theorem export_empty_node_fallback (fs : FileSystem) (escn : EscnFile)
    (settings : ExportSettings) (node : BlEmpty) (parent : GdNode)
    (hE : "EMPTY" ∈ settings.object_types) (sn : String)
    (hm : reMatchScene node.name = some sn)
    (hf : (find_scene fs settings sn).1 = none) :
    export_empty_node fs escn settings node parent =
      (escn.add_node ((NodeTemplate node.name "Spatial" parent).set "transform"
          (.mat node.matrix_local)),
        (NodeTemplate node.name "Spatial" parent).set "transform"
          (.mat node.matrix_local), []) ∧
    ((NodeTemplate node.name "Spatial" parent).set "transform"
        (.mat node.matrix_local)).node_type = "Spatial" ∧
    ((NodeTemplate node.name "Spatial" parent).set "transform"
        (.mat node.matrix_local)).instance_ref = none := by
  refine ⟨?_, rfl, rfl⟩
  have huse : use_external_scene fs escn settings sn = (escn, none) := by
    simp only [use_external_scene, hf]
  simp only [export_empty_node, if_neg (not_not_intro hE), hm, huse]

/-- C6 witness: with scene searching disabled, a pattern-matching name
still produces the spatial fallback node. -/
theorem export_empty_node_fallback_witness :
    "EMPTY" ∈ settingsC.object_types ∧
    reMatchScene "a.tscn" = some "a.tscn" ∧
    (find_scene fsA settingsC "a.tscn").1 = none ∧
    ((NodeTemplate "a.tscn" "Spatial" rootA).set "transform"
        (.mat matA)).node_type = "Spatial" :=
  ⟨by decide, by decide, by decide,
    (export_empty_node_fallback fsA escnEmpty settingsC ⟨"a.tscn", matA⟩ rootA
      (by decide) "a.tscn" (by decide) (by decide)).2.1⟩

/-- C9: a light of a kind outside the closed lookup produces no node,
leaves the document untouched, returns the absent result, and still
invokes the animation-export collaborator with the absent target, which is
a no-op. -/
theorem export_light_node_unknown (fixT : Mat → Mat) (gc : Color → Color)
    (radToDeg : ℚ → ℚ) (escn : EscnFile) (settings : ExportSettings)
    (node : BlLightObject) (parent : GdNode)
    (h : node.data.light_type ∉ ["POINT", "SPOT", "SUN"]) :
    export_light_node fixT gc radToDeg escn settings node parent
        = (escn, none, [⟨none, "light"⟩]) ∧
    export_animation_data escn none "light" = escn := by
  have hb : bl_light_to_gd_light node.data.light_type = none := by
    simp only [List.mem_cons, List.not_mem_nil, or_false] at h
    push_neg at h
    simp only [bl_light_to_gd_light, if_neg h.1, if_neg h.2.1, if_neg h.2.2]
  refine ⟨?_, rfl⟩
  simp only [export_light_node, hb]
  rfl

/-- C9 witness: an area light is not converted and the collaborator call
with the absent target leaves the document unchanged. -/
theorem export_light_node_unknown_witness :
    (lightArea.light_type ∉ ["POINT", "SPOT", "SUN"]) ∧
    export_light_node id id id escnEmpty settingsA ⟨"area", matA, lightArea⟩ rootA
      = (escnEmpty, none, [⟨none, "light"⟩]) :=
  ⟨by decide,
    (export_light_node_unknown id id id escnEmpty settingsA ⟨"area", matA, lightArea⟩
      rootA (by decide)).1⟩

theorem head?_filterMap_ite {α β : Type} (v : α → Bool) (g : α → β) :
    ∀ l : List α,
      (l.filterMap (fun c => if v c then some (g c) else none)).head?
        = (l.find? v).map g
  | [] => rfl
  | a :: t => by
      by_cases h : v a
      · simp [List.filterMap_cons, List.find?_cons, h]
      · simp only [List.filterMap_cons, List.find?_cons, h, Bool.false_eq_true,
          if_false, cond_false]
        exact head?_filterMap_ite v g t

theorem length_filterMap_ite {α β : Type} (v : α → Bool) (g : α → β) :
    ∀ l : List α,
      (l.filterMap (fun c => if v c then some (g c) else none)).length
        = (l.filter v).length
  | [] => rfl
  | a :: t => by
      by_cases h : v a
      · simp [List.filterMap_cons, List.filter_cons, h, length_filterMap_ite v g t]
      · simp [List.filterMap_cons, List.filter_cons, h, length_filterMap_ite v g t]

/-- C8: the subtree search classifies a candidate as valid exactly when its
first line contains the marker token: its result is the first valid
candidate in walk order paired with the declared type, or not-found when
no candidate is valid; and the warning is emitted exactly when more than
one candidate is valid. -/
theorem find_scene_in_subtree_spec (fs : FileSystem) (folder scene_filename : String) :
    (_find_scene_in_subtree fs folder scene_filename).1
      = ((sceneCandidates fs folder scene_filename).find? (isValidSceneFile fs)).map
          (fun c => (c, "PackedScene")) ∧
    (_find_scene_in_subtree fs folder scene_filename).2
      = decide (1 < ((sceneCandidates fs folder scene_filename).filter
          (isValidSceneFile fs)).length) := by
  have hhead := head?_filterMap_ite (isValidSceneFile fs)
    (fun c => (c, "PackedScene")) (sceneCandidates fs folder scene_filename)
  have hlen := length_filterMap_ite (isValidSceneFile fs)
    (fun c => (c, "PackedScene")) (sceneCandidates fs folder scene_filename)
  simp only [_find_scene_in_subtree]
  by_cases h : ((sceneCandidates fs folder scene_filename).filterMap (fun c =>
      if isValidSceneFile fs c then some (c, "PackedScene") else none)).isEmpty
  · rw [if_pos h]
    have h0 := List.isEmpty_iff.mp h
    constructor
    · rw [← hhead, h0]
      rfl
    · rw [← hlen, h0]
      rfl
  · rw [if_neg h]
    exact ⟨hhead, by rw [← hlen]⟩

/-- C7 counterexample: the entity name does not end in a recognized
scene-file suffix, yet external-scene lookup is triggered and an instance
node is produced, because the pattern is not anchored at the end of the
name. -/
theorem export_empty_node_suffix_counterexample :
    (".tscn".toList.isSuffixOf "a.tscn.bak".toList) = false ∧
    (".escn".toList.isSuffixOf "a.tscn.bak".toList) = false ∧
    (export_empty_node fsA escnEmpty settingsA ⟨"a.tscn.bak", matA⟩ rootA).2.1.instance_ref
      = some "ExtResource(1)" := by
  refine ⟨by decide, by decide, ?_⟩
  decide

theorem suffix_take_iff_seg {s cs : List Char} :
    (∃ i, i ≤ cs.length ∧ s <:+ cs.take i) ↔ s <:+: cs := by
  constructor
  · rintro ⟨i, hi, hs⟩
    exact hs.isInfix.trans (List.take_prefix i cs).isInfix
  · rintro ⟨u, v, huv⟩
    refine ⟨u.length + s.length, ?_, ?_⟩
    · have hl := congrArg List.length huv
      simp only [List.length_append] at hl
      omega
    · have ht : cs.take (u.length + s.length) = u ++ s := by
        rw [← huv]
        exact List.take_left' (by simp)
      rw [ht]
      exact List.suffix_append u s

theorem reMatchScene_isSome_iff {name : String} (hnl : '\n' ∉ name.toList) :
    (reMatchScene name).isSome = true ↔
      (".tscn".toList <:+: name.toList ∨ ".escn".toList <:+: name.toList) := by
  have heq : (reMatchScene name).isSome
      = ((List.range (name.toList.length + 1)).reverse.find? (fun i =>
          hasSceneSuffix (name.toList.take i)
            && (name.toList.take (i - 5)).all (fun c => c ≠ '\n'))).isSome := by
    simp only [reMatchScene]
    cases (List.range (name.toList.length + 1)).reverse.find? (fun i =>
      hasSceneSuffix (name.toList.take i)
        && (name.toList.take (i - 5)).all (fun c => c ≠ '\n')) <;> rfl
  rw [heq, List.find?_isSome]
  constructor
  · rintro ⟨i, hmem, hp⟩
    have h1 : hasSceneSuffix (name.toList.take i) = true := (Bool.and_eq_true_iff.mp hp).1
    have hi : i ≤ name.toList.length := by
      rw [List.mem_reverse, List.mem_range] at hmem
      omega
    unfold hasSceneSuffix at h1
    rcases Bool.or_eq_true_iff.mp h1 with h2 | h2
    · exact Or.inl (suffix_take_iff_seg.mp ⟨i, hi, by simpa using h2⟩)
    · exact Or.inr (suffix_take_iff_seg.mp ⟨i, hi, by simpa using h2⟩)
  · intro h
    have hall : ∀ m : Nat, (name.toList.take m).all (fun c => c ≠ '\n') = true := by
      intro m
      rw [List.all_eq_true]
      intro c hc
      have hcm := List.take_subset m name.toList hc
      simp only [ne_eq, decide_not, Bool.not_eq_true', decide_eq_false_iff_not]
      intro hccontra
      exact hnl (hccontra ▸ hcm)
    have hsuf : ∀ s : List Char, s <:+: name.toList →
        (s = ".tscn".toList ∨ s = ".escn".toList) →
        ∃ i, i ∈ (List.range (name.toList.length + 1)).reverse ∧
          (hasSceneSuffix (name.toList.take i)
            && (name.toList.take (i - 5)).all (fun c => c ≠ '\n')) = true := by
      intro s hseg hor
      obtain ⟨i, hi, hs⟩ := suffix_take_iff_seg.mpr hseg
      refine ⟨i, ?_, ?_⟩
      · rw [List.mem_reverse, List.mem_range]
        omega
      · rw [Bool.and_eq_true]
        refine ⟨?_, hall _⟩
        unfold hasSceneSuffix
        rw [Bool.or_eq_true_iff]
        rcases hor with rfl | rfl
        · exact Or.inl (by simpa using hs)
        · exact Or.inr (by simpa using hs)
    rcases h with h | h
    · exact hsuf _ h (Or.inl rfl)
    · exact hsuf _ h (Or.inr rfl)

/-- C7 amended: export_empty_node attempts external-scene resolution
exactly when the unanchored pattern matches the entity's name, that is (for
newline-free names) exactly when '.tscn' or '.escn' occurs anywhere in the
name as a contiguous segment, not only as its final suffix; a matching name
whose lookup succeeds yields an instance node, and a non-matching name
always yields a generic spatial node. -/
theorem export_empty_node_lookup_characterization (fs : FileSystem)
    (escn : EscnFile) (settings : ExportSettings) (node : BlEmpty)
    (parent : GdNode) (hnl : '\n' ∉ node.name.toList) :
    ((reMatchScene node.name).isSome = true ↔
      (".tscn".toList <:+: node.name.toList ∨ ".escn".toList <:+: node.name.toList)) ∧
    (∀ sn inst, reMatchScene node.name = some sn →
      "EMPTY" ∈ settings.object_types →
      (use_external_scene fs escn settings sn).2 = some inst →
      (export_empty_node fs escn settings node parent).2.1
        = (InstanceTemplate node.name inst parent).set "transform"
            (.mat node.matrix_local)) ∧
    (reMatchScene node.name = none →
      "EMPTY" ∈ settings.object_types →
      (export_empty_node fs escn settings node parent).2.1
        = (NodeTemplate node.name "Spatial" parent).set "transform"
            (.mat node.matrix_local)) := by
  refine ⟨reMatchScene_isSome_iff hnl, ?_, ?_⟩
  · intro sn inst hm hE h2
    simp only [export_empty_node, if_neg (not_not_intro hE), hm, h2]
  · intro hm hE
    simp only [export_empty_node, if_neg (not_not_intro hE), hm]

/-- C7 amended witness: the characterization applied to a concrete
newline-free name ending in a recognized suffix. -/
theorem export_empty_node_lookup_characterization_witness :
    '\n' ∉ "x.escn".toList ∧
    ((reMatchScene "x.escn").isSome = true ↔
      (".tscn".toList <:+: "x.escn".toList ∨ ".escn".toList <:+: "x.escn".toList)) :=
  ⟨by decide,
    (export_empty_node_lookup_characterization fsA escnEmpty settingsA
      ⟨"x.escn", matA⟩ rootA (by decide)).1⟩

theorem use_external_scene_doc (fs : FileSystem) (f : EscnFile)
    (settings : ExportSettings) (n : String) :
    (use_external_scene fs f settings n).1.anim_tracks = f.anim_tracks ∧
    (use_external_scene fs f settings n).1.nodes = f.nodes ∧
    (use_external_scene fs f settings n).1.ext_resources.length
      ≤ f.ext_resources.length + 1 := by
  unfold use_external_scene
  rcases (find_scene fs settings n).1 with _ | ext
  · exact ⟨rfl, rfl, Nat.le_succ _⟩
  · rcases f.get_external_resource n with _ | rid
    · refine ⟨rfl, rfl, ?_⟩
      simp [EscnFile.add_external_resource]
    · exact ⟨rfl, rfl, Nat.le_succ _⟩

/-- C10 counterexample: on the instance path, export_empty_node makes no
animation-export call but it does more to the document than add a node: it
also registers an external resource. -/
theorem export_empty_node_effects_counterexample :
    (export_empty_node fsA escnEmpty settingsA ⟨"a.tscn", matA⟩ rootA).2.2 = [] ∧
    (export_empty_node fsA escnEmpty settingsA ⟨"a.tscn", matA⟩ rootA).1.ext_resources
      ≠ escnEmpty.ext_resources := by
  decide

/-- C10 amended: export_empty_node never invokes the animation-export
collaborator and writes no animation track, unlike the camera and light
converters, which delegate to it exactly once; its document effects are at
most one node addition plus at most one external-resource registration. -/
theorem converters_animation_delegation (fs : FileSystem) (fixT : Mat → Mat)
    (gc : Color → Color) (radToDeg : ℚ → ℚ) (escn : EscnFile)
    (settings : ExportSettings) (enode : BlEmpty) (cnode : BlCameraObject)
    (lnode : BlLightObject) (pe pc pl : GdNode) :
    (export_empty_node fs escn settings enode pe).2.2 = [] ∧
    (export_empty_node fs escn settings enode pe).1.anim_tracks = escn.anim_tracks ∧
    (export_empty_node fs escn settings enode pe).1.nodes.length
      ≤ escn.nodes.length + 1 ∧
    (export_empty_node fs escn settings enode pe).1.ext_resources.length
      ≤ escn.ext_resources.length + 1 ∧
    (export_camera_node fixT radToDeg escn settings cnode pc).2.2
      = [⟨some (export_camera_node fixT radToDeg escn settings cnode pc).2.1, "camera"⟩] ∧
    (export_light_node fixT gc radToDeg escn settings lnode pl).2.2
      = [⟨(export_light_node fixT gc radToDeg escn settings lnode pl).2.1, "light"⟩] := by
  have hdoc := use_external_scene_doc fs escn settings
  have hempty : (export_empty_node fs escn settings enode pe).2.2 = [] ∧
      (export_empty_node fs escn settings enode pe).1.anim_tracks = escn.anim_tracks ∧
      (export_empty_node fs escn settings enode pe).1.nodes.length
        ≤ escn.nodes.length + 1 ∧
      (export_empty_node fs escn settings enode pe).1.ext_resources.length
        ≤ escn.ext_resources.length + 1 := by
    by_cases hE : "EMPTY" ∉ settings.object_types
    · have hred : export_empty_node fs escn settings enode pe = (escn, pe, []) := by
        simp only [export_empty_node, if_pos hE]
      rw [hred]
      exact ⟨rfl, rfl, Nat.le_succ _, Nat.le_succ _⟩
    · cases hm : reMatchScene enode.name with
      | none =>
        have hred : export_empty_node fs escn settings enode pe
            = (escn.add_node ((NodeTemplate enode.name "Spatial" pe).set "transform"
                (.mat enode.matrix_local)),
              (NodeTemplate enode.name "Spatial" pe).set "transform"
                (.mat enode.matrix_local), []) := by
          simp only [export_empty_node, if_neg hE, hm]
        rw [hred]
        refine ⟨rfl, rfl, ?_, ?_⟩
        · simp [EscnFile.add_node]
        · simp [EscnFile.add_node]
      | some sn =>
        obtain ⟨ha, hn, he⟩ := hdoc sn
        cases hu : (use_external_scene fs escn settings sn).2 with
        | none =>
          have hred : export_empty_node fs escn settings enode pe
              = ((use_external_scene fs escn settings sn).1.add_node
                  ((NodeTemplate enode.name "Spatial" pe).set "transform"
                    (.mat enode.matrix_local)),
                (NodeTemplate enode.name "Spatial" pe).set "transform"
                  (.mat enode.matrix_local), []) := by
            simp only [export_empty_node, if_neg hE, hm, hu]
          rw [hred]
          refine ⟨rfl, ?_, ?_, ?_⟩
          · simpa [EscnFile.add_node] using ha
          · simp [EscnFile.add_node, hn]
          · simpa [EscnFile.add_node] using he
        | some inst =>
          have hred : export_empty_node fs escn settings enode pe
              = ((use_external_scene fs escn settings sn).1.add_node
                  ((InstanceTemplate enode.name inst pe).set "transform"
                    (.mat enode.matrix_local)),
                (InstanceTemplate enode.name inst pe).set "transform"
                  (.mat enode.matrix_local), []) := by
            simp only [export_empty_node, if_neg hE, hm, hu]
          rw [hred]
          refine ⟨rfl, ?_, ?_, ?_⟩
          · simpa [EscnFile.add_node] using ha
          · simp [EscnFile.add_node, hn]
          · simpa [EscnFile.add_node] using he
  refine ⟨hempty.1, hempty.2.1, hempty.2.2.1, hempty.2.2.2, rfl, ?_⟩
  cases hb : bl_light_to_gd_light lnode.data.light_type with
  | none => simp only [export_light_node, hb]
  | some t => simp only [export_light_node, hb]

end GodotExporter
